import Mathlib

/-
Verification of the flow resource manager in
`action/flow/support/manager.go` (flogo-contrib).

The Go code is shallowly embedded: caches are association lists with
first-match lookup (Go map assignment is modelled by prepending, which
gives the same lookup-observable overwrite semantics), machine calls into
external libraries (gzip, HTTP transport, JSON unmarshalling, filesystem
reads, the definition model) are passed in as function parameters, and Go
run-time panics (index out of range, nil pointer dereference) are modelled
by an explicit outcome constructor.  Bytes are natural numbers below 256.
-/

namespace FlogoFlowSupport

/- URI scheme constants, manager.go lines 21-26. -/

def uriSchemeFile : String := "file://"

def uriSchemeHttp : String := "http://"

def uriSchemeRes : String := "res://"

def RESTYPE_FLOW : String := "flow"

/-- Go `strings.HasPrefix s pre`, on the character lists of the strings
(all scheme constants are ASCII, so characters and bytes agree). -/
def strStartsWith (s pre : String) : Bool :=
  pre.data.isPrefixOf s.data

/-- Go byte-slicing `s[n:]` for an ASCII head, as used in `uri[6:]`. -/
def strDrop (s : String) (n : Nat) : String :=
  String.mk (s.data.drop n)

/-- Go `strings.ToLower`, restricted to its ASCII action (the only values
compared in the source are ASCII header values). -/
def goToLower (s : String) : String :=
  String.mk (s.data.map (fun c =>
    if 65 ≤ c.toNat ∧ c.toNat ≤ 90 then Char.ofNat (c.toNat + 32) else c))

/- Go map model: lookup of the most recent binding for a key. -/

def mapLookup {α : Type} : List (String × α) → String → Option α
  | [], _ => none
  | (k', v) :: rest, k => if k = k' then some v else mapLookup rest k

/-- Go map assignment `m[k] = v`: the new binding shadows any older one. -/
def mapInsert {α : Type} (m : List (String × α)) (k : String) (v : α) :
    List (String × α) :=
  (k, v) :: m

/- Standard base64 (RFC 4648), modelling `encoding/base64.StdEncoding`.
Bytes and encoded characters are `Nat` (ASCII codes); 61 is the code of
the padding character. -/

def b64Alphabet : List Nat :=
  (List.range 26).map (· + 65) ++ (List.range 26).map (· + 97) ++
    (List.range 10).map (· + 48) ++ [43, 47]

def sextetChar (n : Nat) : Nat :=
  b64Alphabet.getD n 0

def sextetVal (c : Nat) : Option Nat :=
  b64Alphabet.findIdx? (fun x => x == c)

/-- Standard base64 encoding of a byte list. -/
def base64Encode : List Nat → List Nat
  | [] => []
  | [a] => [sextetChar (a / 4), sextetChar (a % 4 * 16), 61, 61]
  | [a, b] => [sextetChar (a / 4), sextetChar (a % 4 * 16 + b / 16),
      sextetChar (b % 16 * 4), 61]
  | a :: b :: c :: rest =>
      sextetChar (a / 4) :: sextetChar (a % 4 * 16 + b / 16) ::
        sextetChar (b % 16 * 4 + c / 64) :: sextetChar (c % 64) ::
        base64Encode rest

/-- `base64.StdEncoding.DecodeString`: returns the bytes decoded from the
complete leading quantums together with an error for malformed input
(Go returns both the partial result and the error). -/
def base64Decode : List Nat → List Nat × Option String
  | [] => ([], none)
  | c1 :: c2 :: c3 :: c4 :: rest =>
      match sextetVal c1, sextetVal c2 with
      | some v1, some v2 =>
          if c3 = 61 then
            if c4 = 61 ∧ rest = [] then ([v1 * 4 + v2 / 16], none)
            else ([], some "illegal base64 data")
          else
            match sextetVal c3 with
            | some v3 =>
                if c4 = 61 then
                  if rest = [] then
                    ([v1 * 4 + v2 / 16, v2 % 16 * 16 + v3 / 4], none)
                  else ([], some "illegal base64 data")
                else
                  match sextetVal c4 with
                  | some v4 =>
                      let d := base64Decode rest
                      ((v1 * 4 + v2 / 16) :: (v2 % 16 * 16 + v3 / 4) ::
                        (v3 % 4 * 64 + v4) :: d.1, d.2)
                  | none => ([], some "illegal base64 data")
            | none => ([], some "illegal base64 data")
      | _, _ => ([], some "illegal base64 data")
  | _ => ([], some "illegal base64 data")

/-- Source `unzip` (manager.go lines 237-250): builds a gzip reader over
the bytes and drains it.  The external `compress/gzip` reader pipeline
(`gzip.NewReader` + `ioutil.ReadAll`, either step may fail) is the
`gunzip` parameter. -/
def unzip (gunzip : List Nat → Except String (List Nat))
    (compressed : List Nat) : Except String (List Nat) :=
  gunzip compressed

/-- Source `decodeAndUnzip` (manager.go lines 231-235): base64-decodes the
input, DISCARDING the decode error (`decoded, _ := ...DecodeString`), and
unzips whatever bytes came back. -/
def decodeAndUnzip (gunzip : List Nat → Except String (List Nat))
    (encoded : List Nat) : Except String (List Nat) :=
  unzip gunzip (base64Decode encoded).1

/- The manager state, manager.go lines 35-41.  `resFlows` is the
preloaded cache, `remoteFlows` the lazily allocated remote cache (`none`
models the Go nil map before its first use).  The `flowProvider` field and
the `materializeFlow` method call external collaborators, so they appear
as function parameters of the operations below. -/

structure FlowManager (Def : Type) where
  resFlows : List (String × Def)
  remoteFlows : Option (List (String × Def))

/-- Source `NewFlowManager` (lines 44-58): empty preloaded cache, remote
cache still nil. -/
def newFlowManager {Def : Type} : FlowManager Def :=
  { resFlows := [], remoteFlows := none }

/-- `resource.Config` as consumed by `LoadResource` (external input
contract: id, payload bytes, compressed flag). -/
structure ResourceConfig where
  ID : String
  Data : List Nat
  Compressed : Bool

/-- Source `FlowManager.materializeFlow` (lines 126-147).  The external
definition model (`definition.NewDefinition`), the process-wide factory
registration (`definition.GetLinkExprManagerFactory`, `none` when never
set), the built-in fallback factory and the `SetLinkExprManager` wiring
step are parameters. -/
def materializeFlow {Rep Def LM : Type}
    (newDefinition : Rep → Except String Def)
    (registeredFactory : Option (Def → LM)) (defaultFactory : Def → LM)
    (setLinkExprManager : Def → LM → Def)
    (flowRep : Rep) : Except String Def :=
  match newDefinition flowRep with
  | .error e => .error ("error unmarshalling flow: " ++ e)
  | .ok d =>
      let factory := match registeredFactory with
        | some f => f
        | none => defaultFactory
      .ok (setLinkExprManager d (factory d))

/-- Source `FlowManager.LoadResource` (lines 59-87): optional
base64+gzip decode, JSON unmarshal (`unmarshalRep`), materialization
(`materialize` stands for `rm.materializeFlow`), then unconditional map
assignment into the preloaded cache. -/
def loadResource {Rep Def : Type}
    (gunzip : List Nat → Except String (List Nat))
    (unmarshalRep : List Nat → Except String Rep)
    (materialize : Rep → Except String Def)
    (rm : FlowManager Def) (config : ResourceConfig) :
    Except String (FlowManager Def) :=
  match (if config.Compressed then
          match decodeAndUnzip gunzip config.Data with
          | .error e => .error ("error decoding compressed resource with id " ++
              config.ID ++ ", " ++ e)
          | .ok decodedBytes => .ok decodedBytes
        else .ok config.Data : Except String (List Nat)) with
  | .error e => .error e
  | .ok flowDefBytes =>
      match unmarshalRep flowDefBytes with
      | .error e => .error ("error marshalling flow resource with id " ++
          config.ID ++ ", " ++ e)
      | .ok defRep =>
          match materialize defRep with
          | .error e => .error e
          | .ok flow =>
              .ok { rm with resFlows := mapInsert rm.resFlows config.ID flow }

/-- Source `FlowManager.GetResource` (lines 89-91): bare map lookup in the
preloaded cache (`nil` for a missing key becomes `none`). -/
def getResource {Def : Type} (rm : FlowManager Def) (id : String) : Option Def :=
  mapLookup rm.resFlows id

/-- Source `FlowManager.GetFlow` (lines 93-124).  `provider` stands for
`rm.flowProvider.GetFlow`, `mat` for `rm.materializeFlow`.  The result is
the returned `(definition, error)` pair (`.ok none` is a nil definition
with nil error), the post-call manager state, and whether the provider
fetch was invoked on this call. -/
def getFlow {Rep Def : Type}
    (provider : String → Except String Rep)
    (mat : Rep → Except String Def)
    (rm : FlowManager Def) (uri : String) :
    Except String (Option Def) × FlowManager Def × Bool :=
  if strStartsWith uri uriSchemeRes then
    (.ok (mapLookup rm.resFlows (strDrop uri 6)), rm, false)
  else
    match mapLookup (rm.remoteFlows.getD []) uri with
    | some flow =>
        (.ok (some flow),
          { rm with remoteFlows := some (rm.remoteFlows.getD []) }, false)
    | none =>
        match provider uri with
        | .error e =>
            (.error e,
              { rm with remoteFlows := some (rm.remoteFlows.getD []) }, true)
        | .ok defRep =>
            match mat defRep with
            | .error e =>
                (.error e,
                  { rm with remoteFlows := some (rm.remoteFlows.getD []) }, true)
            | .ok flow =>
                (.ok (some flow),
                  { rm with
                    remoteFlows := some (mapInsert (rm.remoteFlows.getD []) uri flow) },
                  true)

/-- A sequence of `GetFlow` calls against one manager; the log records,
per call, the uri, whether the provider was invoked, and the result. -/
def runGetFlows {Rep Def : Type}
    (provider : String → Except String Rep)
    (mat : Rep → Except String Def) :
    FlowManager Def → List String →
      FlowManager Def × List (String × Bool × Except String (Option Def))
  | rm, [] => (rm, [])
  | rm, uri :: rest =>
      let step := getFlow provider mat rm uri
      let restRun := runGetFlows provider mat step.2.1 rest
      (restRun.1, (uri, step.2.2, step.1) :: restRun.2)

/-- Number of provider fetches recorded for `uri` in a call log. -/
def fetchCount {Def : Type}
    (log : List (String × Bool × Except String (Option Def)))
    (uri : String) : Nat :=
  (log.filter (fun e => e.1 == uri && e.2.1)).length

/-- The results of the calls for `uri`, in order, in a call log. -/
def resultsFor {Def : Type}
    (log : List (String × Bool × Except String (Option Def)))
    (uri : String) : List (Except String (Option Def)) :=
  (log.filter (fun e => e.1 == uri)).map (fun e => e.2.2)

/- The default fetch strategy `BasicRemoteFlowProvider.GetFlow`,
manager.go lines 149-229. -/

/-- Outcome of a Go function call that can also crash the goroutine:
a value, an error value, or a run-time panic. -/
inductive GoResult (α : Type) where
  | ok (a : α)
  | err (e : String)
  | panik
  deriving DecidableEq

/-- The common tail of the provider (lines 221-229): JSON-unmarshal the
canonical bytes into a `DefinitionRep`. -/
def parseRep {Rep : Type} (unmarshalRep : List Nat → Except String Rep)
    (flowURI : String) (flowDefBytes : List Nat) : GoResult Rep :=
  match unmarshalRep flowDefBytes with
  | .error e =>
      .err ("error marshalling flow with uri " ++ flowURI ++ ", " ++ e)
  | .ok flow => .ok flow

/-- The HTTP response as consumed by the provider: status code, the
`flow-compressed` header value (`""` when the header is absent, as
returned by `Header.Get`), and the result of draining the body
(`ioutil.ReadAll` may fail). -/
structure HttpResponse where
  statusCode : Nat
  headerFlowCompressed : String
  bodyResult : Except String (List Nat)

/-- Source `BasicRemoteFlowProvider.GetFlow` (lines 152-229).
Externals as parameters: `readFile` is `util.URLStringToFilePath` plus
`ioutil.ReadFile`; `gunzip` the gzip reader pipeline; `newRequest` is
`http.NewRequest "GET"` returning a possibly-nil request and an error that
the source immediately discards (its `err` is overwritten by `client.Do`);
`doRequest` is `client.Do`; `unmarshalRep` is `json.Unmarshal`.
`.panik` models the Go panics: indexing `readBytes[0]`/`readBytes[2]`
out of range, and `client.Do` dereferencing a nil request. -/
def basicRemoteGetFlow {Rep Req : Type}
    (readFile : String → Except String (List Nat))
    (gunzip : List Nat → Except String (List Nat))
    (newRequest : String → Option Req × Option String)
    (doRequest : Req → Except String HttpResponse)
    (unmarshalRep : List Nat → Except String Rep)
    (flowURI : String) : GoResult Rep :=
  if strStartsWith flowURI uriSchemeFile then
    match readFile flowURI with
    | .error e =>
        .err ("error reading flow with uri " ++ flowURI ++ ", " ++ e)
    | .ok readBytes =>
        match readBytes[0]? with
        | none => .panik
        | some b0 =>
            if b0 = 31 then
              match readBytes[2]? with
              | none => .panik
              | some b2 =>
                  if b2 = 139 then
                    match unzip gunzip readBytes with
                    | .error e =>
                        .err ("error uncompressing flow with uri " ++
                          flowURI ++ ", " ++ e)
                    | .ok bs => parseRep unmarshalRep flowURI bs
                  else parseRep unmarshalRep flowURI readBytes
            else parseRep unmarshalRep flowURI readBytes
  else
    match (newRequest flowURI).1 with
    | none => .panik
    | some req =>
        match doRequest req with
        | .error e =>
            .err ("error getting flow with uri " ++ flowURI ++ ", " ++ e)
        | .ok resp =>
            if 300 ≤ resp.statusCode then
              .err ("error getting flow with uri " ++ flowURI ++
                ", status code")
            else
              match resp.bodyResult with
              | .error e =>
                  .err ("error reading flow response body with uri " ++
                    flowURI ++ ", " ++ e)
              | .ok body =>
                  if goToLower resp.headerFlowCompressed = "true" then
                    match decodeAndUnzip gunzip body with
                    | .error e =>
                        .err ("error decoding compressed flow with uri " ++
                          flowURI ++ ", " ++ e)
                    | .ok decodedBytes =>
                        parseRep unmarshalRep flowURI decodedBytes
                  else parseRep unmarshalRep flowURI body

/- Helper lemmas. -/

/-- Every sextet index below 64 survives the alphabet round trip, and no
alphabet character is the padding character 61. -/
theorem sextet_roundtrip :
    ∀ n, n < 64 → sextetVal (sextetChar n) = some n ∧ sextetChar n ≠ 61 := by
  decide

/-- Decoding inverts encoding on byte lists (all entries below 256), with
no decode error. -/
theorem base64Encode_decode :
    ∀ l : List Nat, (∀ x ∈ l, x < 256) →
      base64Decode (base64Encode l) = (l, none)
  | [], _ => rfl
  | [a], h => by
      have ha : a < 256 := h a (by simp)
      have h1 := sextet_roundtrip (a / 4) (by omega)
      have h2 := sextet_roundtrip (a % 4 * 16) (by omega)
      simp only [base64Encode, base64Decode, h1.1, h2.1]
      norm_num
      omega
  | [a, b], h => by
      have ha : a < 256 := h a (by simp)
      have hb : b < 256 := h b (by simp)
      have h1 := sextet_roundtrip (a / 4) (by omega)
      have h2 := sextet_roundtrip (a % 4 * 16 + b / 16) (by omega)
      have h3 := sextet_roundtrip (b % 16 * 4) (by omega)
      simp only [base64Encode, base64Decode, h1.1, h2.1, h3.1, if_neg h3.2]
      norm_num
      constructor
      · omega
      · omega
  | a :: b :: c :: rest, h => by
      have ha : a < 256 := h a (by simp)
      have hb : b < 256 := h b (by simp)
      have hc : c < 256 := h c (by simp)
      have ih := base64Encode_decode rest (fun x hx => h x (by simp [hx]))
      have h1 := sextet_roundtrip (a / 4) (by omega)
      have h2 := sextet_roundtrip (a % 4 * 16 + b / 16) (by omega)
      have h3 := sextet_roundtrip (b % 16 * 4 + c / 64) (by omega)
      have h4 := sextet_roundtrip (c % 64) (by omega)
      simp only [base64Encode, base64Decode, h1.1, h2.1, h3.1, h4.1,
        if_neg h3.2, if_neg h4.2, ih]
      have e1 : a / 4 * 4 + (a % 4 * 16 + b / 16) / 16 = a := by omega
      have e2 : (a % 4 * 16 + b / 16) % 16 * 16 + (b % 16 * 4 + c / 64) / 4 = b := by
        omega
      have e3 : (b % 16 * 4 + c / 64) % 4 * 64 + c % 64 = c := by omega
      rw [e1, e2, e3]

/-- On a remote-cache hit, `getFlow` returns the cached definition, does
not fetch, and only forces the lazy allocation of the remote map. -/
theorem getFlow_cachedHit {Rep Def : Type}
    (provider : String → Except String Rep) (mat : Rep → Except String Def)
    (rm : FlowManager Def) (uri : String) (d : Def)
    (h1 : strStartsWith uri uriSchemeRes = false)
    (h2 : mapLookup (rm.remoteFlows.getD []) uri = some d) :
    getFlow provider mat rm uri =
      (.ok (some d), { rm with remoteFlows := some (rm.remoteFlows.getD []) },
        false) := by
  simp [getFlow, h1, h2]

/-- Any `getFlow` call preserves every existing remote-cache binding. -/
theorem getFlow_preserves_remoteEntry {Rep Def : Type}
    (provider : String → Except String Rep) (mat : Rep → Except String Def)
    (rm : FlowManager Def) (uri k : String) (d : Def)
    (h : mapLookup (rm.remoteFlows.getD []) k = some d) :
    mapLookup (((getFlow provider mat rm uri).2.1).remoteFlows.getD []) k =
      some d := by
  unfold getFlow
  by_cases hs : strStartsWith uri uriSchemeRes
  · simpa [hs] using h
  · simp only [hs, Bool.false_eq_true, if_false]
    cases hcu : mapLookup (rm.remoteFlows.getD []) uri with
    | some flow => simpa using h
    | none =>
        cases hp : provider uri with
        | error e => simpa using h
        | ok defRep =>
            cases hm : mat defRep with
            | error e => simpa [hm] using h
            | ok flow =>
                have hne : k ≠ uri := by
                  intro he
                  rw [← he] at hcu
                  rw [h] at hcu
                  cases hcu
                simpa [hm, mapInsert, mapLookup, hne] using h

/-- `getFlow` never touches the preloaded cache. -/
theorem getFlow_preserves_resFlows {Rep Def : Type}
    (provider : String → Except String Rep) (mat : Rep → Except String Def)
    (rm : FlowManager Def) (uri : String) :
    ((getFlow provider mat rm uri).2.1).resFlows = rm.resFlows := by
  unfold getFlow
  by_cases hs : strStartsWith uri uriSchemeRes
  · simp [hs]
  · simp only [hs, Bool.false_eq_true, if_false]
    cases hcu : mapLookup (rm.remoteFlows.getD []) uri with
    | some flow => simp
    | none =>
        cases hp : provider uri with
        | error e => simp
        | ok defRep =>
            cases hm : mat defRep with
            | error e => simp [hm]
            | ok flow => simp [hm]

/-- On a successful `loadResource`, the remote cache is untouched (only
the preloaded cache is assigned). -/
theorem loadResource_preserves_remoteFlows {Rep Def : Type}
    (gunzip : List Nat → Except String (List Nat))
    (unmarshalRep : List Nat → Except String Rep)
    (materialize : Rep → Except String Def)
    (rm : FlowManager Def) (config : ResourceConfig) (rm2 : FlowManager Def)
    (h : loadResource gunzip unmarshalRep materialize rm config = .ok rm2) :
    rm2.remoteFlows = rm.remoteFlows := by
  unfold loadResource at h
  split at h
  · simp at h
  · split at h
    · simp at h
    · split at h
      · simp at h
      · cases h
        rfl

/- Concrete instantiations used by the witnesses below. -/

def provider0 : String → Except String Nat :=
  fun _ => Except.error "transport error"

def providerOk : String → Except String Nat :=
  fun _ => Except.ok 7

def mat0 : Nat → Except String Nat :=
  fun n => Except.ok n

def unmarshal0 : List Nat → Except String Nat :=
  fun b => Except.ok (b.headD 0)

def gunzip0 : List Nat → Except String (List Nat) :=
  fun _ => Except.error "gzip: invalid header"

def rmCachedU : FlowManager Nat :=
  { resFlows := [], remoteFlows := some [("u", 5)] }

def rmWithX : FlowManager Nat :=
  { resFlows := [("x", 1)], remoteFlows := none }

def cfgX2 : ResourceConfig :=
  { ID := "x", Data := [2], Compressed := false }

/- Claim theorems. -/

/-- C1: for a URI that does not begin with `res://`, once its definition
is stored in the remote cache, any later sequence of `GetFlow` calls
performs zero provider fetches for that URI, and every call for that URI
returns the cached definition. -/
theorem cached_flow_never_refetched {Rep Def : Type}
    (provider : String → Except String Rep) (mat : Rep → Except String Def)
    (rm : FlowManager Def) (uris : List String) (uri : String) (d : Def)
    (h1 : strStartsWith uri uriSchemeRes = false)
    (h2 : mapLookup (rm.remoteFlows.getD []) uri = some d) :
    fetchCount (runGetFlows provider mat rm uris).2 uri = 0 ∧
    resultsFor (runGetFlows provider mat rm uris).2 uri =
      List.replicate ((uris.filter (fun u => u == uri)).length)
        (Except.ok (some d)) := by
  induction uris generalizing rm with
  | nil => simp [runGetFlows, fetchCount, resultsFor]
  | cons u rest ih =>
      by_cases hu : u = uri
      · subst hu
        have hstep := getFlow_cachedHit provider mat rm u d h1 h2
        have h2b : mapLookup
            (({ rm with remoteFlows := some (rm.remoteFlows.getD []) } :
              FlowManager Def).remoteFlows.getD []) u = some d := by
          simpa using h2
        have hrest := ih _ h2b
        simp only [runGetFlows, hstep, fetchCount, resultsFor] at hrest ⊢
        simp [List.filter_cons, hrest.1, hrest.2, List.replicate_succ]
      · have hkeep : mapLookup
            (((getFlow provider mat rm u).2.1).remoteFlows.getD []) uri =
              some d :=
          getFlow_preserves_remoteEntry provider mat rm u uri d h2
        have hrest := ih _ hkeep
        have hne : (u == uri) = false := beq_eq_false_iff_ne.mpr hu
        simp only [runGetFlows, fetchCount, resultsFor] at hrest ⊢
        simp [List.filter_cons, hne, hrest.1, hrest.2]

/-- C1 witness: with `u` already cached with value 5, two further calls
for `u` fetch zero times and both return the cached value. -/
theorem cached_flow_never_refetched_witness :
    fetchCount (runGetFlows provider0 mat0 rmCachedU ["u", "u"]).2 "u" = 0 ∧
    resultsFor (runGetFlows provider0 mat0 rmCachedU ["u", "u"]).2 "u" =
      List.replicate ((["u", "u"].filter (fun u => u == "u")).length)
        (Except.ok (some 5)) :=
  cached_flow_never_refetched provider0 mat0 rmCachedU ["u", "u"] "u" 5
    (by decide) (by decide)

/-- C2: for a URI beginning with `res://`, `GetFlow` performs no fetch,
returns no error, leaves the state unchanged, and answers with the direct
preloaded-map lookup of the URI minus its 6-character scheme (absent id
gives a nil definition and nil error). -/
theorem res_scheme_dispatch {Rep Def : Type}
    (provider : String → Except String Rep) (mat : Rep → Except String Def)
    (rm : FlowManager Def) (uri : String)
    (h : strStartsWith uri uriSchemeRes = true) :
    getFlow provider mat rm uri =
      (.ok (mapLookup rm.resFlows (strDrop uri 6)), rm, false) := by
  simp [getFlow, h]

/-- C2 witness: `res://missing` on an empty manager gives a nil
definition, no error, no fetch. -/
theorem res_scheme_dispatch_witness :
    getFlow provider0 mat0 (newFlowManager : FlowManager Nat) "res://missing" =
      (.ok none, newFlowManager, false) :=
  res_scheme_dispatch provider0 mat0 newFlowManager "res://missing" (by decide)

/-- C3 counterexample: the claim says no operation, including a repeated
`LoadResource` with the same id, replaces an existing entry's value; but
`LoadResource` assigns unconditionally, so id `x` changes from
definition 1 to definition 2. -/
theorem loadResource_overwrite_counterexample :
    getResource rmWithX "x" = some 1 ∧
    (loadResource gunzip0 unmarshal0 mat0 rmWithX cfgX2).map
      (fun rm2 => getResource rm2 "x") = .ok (some 2) := by
  constructor
  · rfl
  · rfl

/-- C3 (amended): remote-cache entries, once present, are never replaced
(`GetFlow` preserves every existing binding and `LoadResource` never
touches the remote cache), and `GetFlow` never modifies the preloaded
cache; the preloaded cache, however, is overwritten by a repeated
`LoadResource` with the same id. -/
theorem cache_immutability_amended {Rep Def : Type}
    (provider : String → Except String Rep) (mat : Rep → Except String Def)
    (gunzip : List Nat → Except String (List Nat))
    (unmarshalRep : List Nat → Except String Rep)
    (rm : FlowManager Def) (uri k : String) (d : Def) (config : ResourceConfig)
    (h : mapLookup (rm.remoteFlows.getD []) k = some d) :
    mapLookup (((getFlow provider mat rm uri).2.1).remoteFlows.getD []) k =
      some d ∧
    ((getFlow provider mat rm uri).2.1).resFlows = rm.resFlows ∧
    (loadResource gunzip unmarshalRep mat rm config).map
        (fun rm2 => rm2.remoteFlows) =
      (loadResource gunzip unmarshalRep mat rm config).map
        (fun _ => rm.remoteFlows) := by
  refine ⟨getFlow_preserves_remoteEntry provider mat rm uri k d h,
    getFlow_preserves_resFlows provider mat rm uri, ?_⟩
  cases hl : loadResource gunzip unmarshalRep mat rm config with
  | error e => rfl
  | ok rm2 =>
      simp [Except.map,
        loadResource_preserves_remoteFlows gunzip unmarshalRep mat rm config
          rm2 hl]

/-- C3 amended witness at concrete values. -/
theorem cache_immutability_amended_witness :
    mapLookup (((getFlow providerOk mat0 rmCachedU "v").2.1).remoteFlows.getD [])
      "u" = some 5 ∧
    ((getFlow providerOk mat0 rmCachedU "v").2.1).resFlows = rmCachedU.resFlows ∧
    (loadResource gunzip0 unmarshal0 mat0 rmCachedU cfgX2).map
        (fun rm2 => rm2.remoteFlows) =
      (loadResource gunzip0 unmarshal0 mat0 rmCachedU cfgX2).map
        (fun _ => rmCachedU.remoteFlows) :=
  cache_immutability_amended providerOk mat0 gunzip0 unmarshal0 rmCachedU
    "v" "u" 5 cfgX2 (by decide)

/-- C4: for a non-`res://` URI not yet cached, when the fetch or the
materialization fails, `GetFlow` returns that error, the remote cache
still has no entry for the URI, and a second call fetches again. -/
theorem fetch_error_no_negative_caching {Rep Def : Type}
    (provider : String → Except String Rep) (mat : Rep → Except String Def)
    (rm : FlowManager Def) (uri : String) (e : String)
    (h1 : strStartsWith uri uriSchemeRes = false)
    (h2 : mapLookup (rm.remoteFlows.getD []) uri = none)
    (h3 : (provider uri >>= mat) = Except.error e) :
    (getFlow provider mat rm uri).1 = Except.error e ∧
    (getFlow provider mat rm uri).2.2 = true ∧
    mapLookup (((getFlow provider mat rm uri).2.1).remoteFlows.getD []) uri =
      none ∧
    (getFlow provider mat ((getFlow provider mat rm uri).2.1) uri).2.2 =
      true := by
  cases hp : provider uri with
  | error e' =>
      have he : e' = e := by
        rw [hp] at h3
        simpa [Bind.bind, Except.bind] using h3
      subst he
      refine ⟨?_, ?_, ?_, ?_⟩ <;> simp [getFlow, h1, h2, hp]
  | ok defRep =>
      cases hm : mat defRep with
      | error e' =>
          have he : e' = e := by
            rw [hp] at h3
            simpa [Bind.bind, Except.bind, hm] using h3
          subst he
          refine ⟨?_, ?_, ?_, ?_⟩ <;> simp [getFlow, h1, h2, hp, hm]
      | ok flow =>
          exfalso
          rw [hp] at h3
          simp [Bind.bind, Except.bind, hm] at h3

/-- C4 witness: a failing provider on an empty manager. -/
theorem fetch_error_no_negative_caching_witness :
    (getFlow provider0 mat0 (newFlowManager : FlowManager Nat) "u").1 =
      Except.error "transport error" ∧
    (getFlow provider0 mat0 (newFlowManager : FlowManager Nat) "u").2.2 = true ∧
    mapLookup
      (((getFlow provider0 mat0 (newFlowManager : FlowManager Nat) "u").2.1).remoteFlows.getD [])
      "u" = none ∧
    (getFlow provider0 mat0
      ((getFlow provider0 mat0 (newFlowManager : FlowManager Nat) "u").2.1)
      "u").2.2 = true :=
  fetch_error_no_negative_caching provider0 mat0 newFlowManager "u"
    "transport error" (by decide) (by decide) (by rfl)

/- Concrete instantiations for the provider witnesses. -/

def readFile0 : String → Except String (List Nat) :=
  fun _ => Except.ok [31, 139, 7]

def readFileShort : String → Except String (List Nat) :=
  fun _ => Except.ok [31]

def newRequest0 : String → Option Unit × Option String :=
  fun _ => (some (), none)

def newRequestBad : String → Option Unit × Option String :=
  fun _ => (none, some "missing protocol scheme")

def resp0 : HttpResponse :=
  { statusCode := 200, headerFlowCompressed := "True",
    bodyResult := Except.ok [72, 105] }

def doRequest0 : Unit → Except String HttpResponse :=
  fun _ => Except.ok resp0

def gunzipRT : List Nat → Except String (List Nat) :=
  fun l => if l = [31, 139, 7] then Except.ok [1, 2]
    else Except.error "gzip: invalid header"

/-- C5: for a `file://` URI whose content has bytes at offsets 0 and 2,
the default fetch strategy takes the raw-gzip path exactly when the byte
at offset 0 is `0x1F` and the byte at offset 2 is `0x8B`; in every other
case (including `0x1F` at offset 0 with a different byte at offset 2) the
content is parsed as-is.  The sniff inspects offsets 0 and 2, never
offset 1. -/
theorem file_gzip_sniff_offsets {Rep Req : Type}
    (readFile : String → Except String (List Nat))
    (gunzip : List Nat → Except String (List Nat))
    (newRequest : String → Option Req × Option String)
    (doRequest : Req → Except String HttpResponse)
    (unmarshalRep : List Nat → Except String Rep)
    (flowURI : String) (readBytes : List Nat) (b0 b2 : Nat)
    (h1 : strStartsWith flowURI uriSchemeFile = true)
    (h2 : readFile flowURI = .ok readBytes)
    (h0 : readBytes[0]? = some b0)
    (h2b : readBytes[2]? = some b2) :
    basicRemoteGetFlow readFile gunzip newRequest doRequest unmarshalRep
        flowURI =
      if b0 = 31 ∧ b2 = 139 then
        (match unzip gunzip readBytes with
         | .error e => GoResult.err ("error uncompressing flow with uri " ++
             flowURI ++ ", " ++ e)
         | .ok bs => parseRep unmarshalRep flowURI bs)
      else parseRep unmarshalRep flowURI readBytes := by
  by_cases hg : b0 = 31 ∧ b2 = 139
  · rw [if_pos hg]
    simp [basicRemoteGetFlow, h1, h2, h0, h2b, hg.1, hg.2]
  · rw [if_neg hg]
    by_cases hb0 : b0 = 31
    · have hb2 : ¬ b2 = 139 := fun hh => hg ⟨hb0, hh⟩
      simp [basicRemoteGetFlow, h1, h2, h0, h2b, hb0, hb2]
    · simp [basicRemoteGetFlow, h1, h2, h0, h2b, hb0]

/-- C5 witness: a file whose bytes are `0x1F 0x8B 0x07` carries the
conventional gzip magic at offsets 0 and 1, yet is treated as plain JSON
because the sniff checks offset 2. -/
theorem file_gzip_sniff_offsets_witness :
    basicRemoteGetFlow readFile0 gunzip0 newRequest0 doRequest0 unmarshal0
        "file:///flow.json" =
      if (31 : Nat) = 31 ∧ (7 : Nat) = 139 then
        (match unzip gunzip0 [31, 139, 7] with
         | .error e => GoResult.err ("error uncompressing flow with uri " ++
             "file:///flow.json" ++ ", " ++ e)
         | .ok bs => parseRep unmarshal0 "file:///flow.json" bs)
      else parseRep unmarshal0 "file:///flow.json" [31, 139, 7] :=
  file_gzip_sniff_offsets readFile0 gunzip0 newRequest0 doRequest0 unmarshal0
    "file:///flow.json" [31, 139, 7] 31 7 (by decide) (by rfl) (by rfl)
    (by rfl)

/-- C6: the source discards the base64 decode error, so an invalid
base64 input (here the bytes of the string consisting of four `!`
characters) produces no base64 error from `decodeAndUnzip`: the partial
(empty) decode result is handed to the gzip reader instead, whatever
that reader is. -/
theorem decodeAndUnzip_swallows_base64_error :
    ∀ gunzip : List Nat → Except String (List Nat),
      (base64Decode [33, 33, 33, 33]).2 = some "illegal base64 data" ∧
      decodeAndUnzip gunzip [33, 33, 33, 33] = gunzip [] := by
  intro gunzip
  exact ⟨by decide, rfl⟩

/-- C7: for an HTTP response with status below 300 and a readable body,
the body is base64+gzip decoded exactly when the lower-cased
`flow-compressed` header value equals `"true"`; `True`, `TRUE` and `true`
all lower-case to `"true"`, while `False`, `false` and the absent header
(`""`) do not. -/
theorem http_compressed_flag_case_insensitive {Rep Req : Type}
    (readFile : String → Except String (List Nat))
    (gunzip : List Nat → Except String (List Nat))
    (newRequest : String → Option Req × Option String)
    (doRequest : Req → Except String HttpResponse)
    (unmarshalRep : List Nat → Except String Rep)
    (flowURI : String) (req : Req) (resp : HttpResponse) (body : List Nat)
    (h1 : strStartsWith flowURI uriSchemeFile = false)
    (h2 : (newRequest flowURI).1 = some req)
    (h3 : doRequest req = .ok resp)
    (h4 : resp.statusCode < 300)
    (h5 : resp.bodyResult = .ok body) :
    (basicRemoteGetFlow readFile gunzip newRequest doRequest unmarshalRep
        flowURI =
      if goToLower resp.headerFlowCompressed = "true" then
        (match decodeAndUnzip gunzip body with
         | .error e => GoResult.err ("error decoding compressed flow with uri " ++
             flowURI ++ ", " ++ e)
         | .ok decodedBytes => parseRep unmarshalRep flowURI decodedBytes)
      else parseRep unmarshalRep flowURI body) ∧
    goToLower "True" = "true" ∧ goToLower "TRUE" = "true" ∧
    goToLower "true" = "true" ∧ goToLower "False" ≠ "true" ∧
    goToLower "false" ≠ "true" ∧ goToLower "" ≠ "true" := by
  refine ⟨?_, by decide, by decide, by decide, by decide, by decide, by decide⟩
  have hnot : ¬ 300 ≤ resp.statusCode := by omega
  simp [basicRemoteGetFlow, h1, h2, h3, hnot, h5]

/-- C7 witness: a 200 response with header value `True` takes the
decompression path. -/
theorem http_compressed_flag_case_insensitive_witness :
    (basicRemoteGetFlow readFile0 gunzip0 newRequest0 doRequest0 unmarshal0
        "http://example.com/flow" =
      if goToLower resp0.headerFlowCompressed = "true" then
        (match decodeAndUnzip gunzip0 [72, 105] with
         | .error e => GoResult.err ("error decoding compressed flow with uri " ++
             "http://example.com/flow" ++ ", " ++ e)
         | .ok decodedBytes =>
             parseRep unmarshal0 "http://example.com/flow" decodedBytes)
      else parseRep unmarshal0 "http://example.com/flow" [72, 105]) ∧
    goToLower "True" = "true" ∧ goToLower "TRUE" = "true" ∧
    goToLower "true" = "true" ∧ goToLower "False" ≠ "true" ∧
    goToLower "false" ≠ "true" ∧ goToLower "" ≠ "true" :=
  http_compressed_flag_case_insensitive readFile0 gunzip0 newRequest0
    doRequest0 unmarshal0 "http://example.com/flow" () resp0 [72, 105]
    (by decide) (by rfl) (by rfl) (by decide) (by rfl)

/-- C8: when the external gzip reader inverts the compression of `b`
(`gunzip compressed = ok b`, the library contract for
`compressed = gzip(b)`), `unzip` recovers `b` from the compressed bytes,
and `decodeAndUnzip` recovers `b` from their standard base64 encoding. -/
theorem decode_roundtrip_recovers_bytes
    (gunzip : List Nat → Except String (List Nat))
    (compressed b : List Nat)
    (h1 : ∀ x ∈ compressed, x < 256)
    (h2 : gunzip compressed = .ok b) :
    unzip gunzip compressed = .ok b ∧
    decodeAndUnzip gunzip (base64Encode compressed) = .ok b := by
  refine ⟨h2, ?_⟩
  unfold decodeAndUnzip
  rw [base64Encode_decode compressed h1]
  exact h2

/-- C8 witness: a concrete three-byte compressed payload round-trips
through base64 and the gzip reader. -/
theorem decode_roundtrip_recovers_bytes_witness :
    unzip gunzipRT [31, 139, 7] = .ok [1, 2] ∧
    decodeAndUnzip gunzipRT (base64Encode [31, 139, 7]) = .ok [1, 2] :=
  decode_roundtrip_recovers_bytes gunzipRT [31, 139, 7] [1, 2] (by decide)
    (by rfl)

/-- C9: a `file://` URI whose file reads successfully but is shorter than
3 bytes makes the gzip sniff index out of range: an empty file panics at
`readBytes[0]`, and a short file starting with `0x1F` panics at
`readBytes[2]`; no error value is returned. -/
theorem file_sniff_short_content_panics {Rep Req : Type}
    (readFile : String → Except String (List Nat))
    (gunzip : List Nat → Except String (List Nat))
    (newRequest : String → Option Req × Option String)
    (doRequest : Req → Except String HttpResponse)
    (unmarshalRep : List Nat → Except String Rep)
    (flowURI : String) (readBytes : List Nat)
    (h1 : strStartsWith flowURI uriSchemeFile = true)
    (h2 : readFile flowURI = .ok readBytes)
    (h3 : readBytes = [] ∨
      (readBytes[0]? = some 31 ∧ readBytes[2]? = none)) :
    basicRemoteGetFlow readFile gunzip newRequest doRequest unmarshalRep
        flowURI = .panik := by
  cases h3 with
  | inl h => subst h; simp [basicRemoteGetFlow, h1, h2]
  | inr h => simp [basicRemoteGetFlow, h1, h2, h.1, h.2]

/-- C9 witness: a one-byte file containing only `0x1F` (shorter than 3
bytes) panics. -/
theorem file_sniff_short_content_panics_witness :
    basicRemoteGetFlow readFileShort gunzip0 newRequest0 doRequest0 unmarshal0
        "file:///short.json" = .panik :=
  file_sniff_short_content_panics readFileShort gunzip0 newRequest0 doRequest0
    unmarshal0 "file:///short.json" [31] (by decide) (by rfl)
    (Or.inr ⟨by rfl, by rfl⟩)

/-- C10: for a non-`file://` URI on which `http.NewRequest` fails (nil
request plus an error the source immediately overwrites), the strategy
passes the nil request to `client.Do`, which panics; no transport error
reaches the caller. -/
theorem invalid_url_nil_request_panics {Rep Req : Type}
    (readFile : String → Except String (List Nat))
    (gunzip : List Nat → Except String (List Nat))
    (newRequest : String → Option Req × Option String)
    (doRequest : Req → Except String HttpResponse)
    (unmarshalRep : List Nat → Except String Rep)
    (flowURI : String) (errMsg : String)
    (h1 : strStartsWith flowURI uriSchemeFile = false)
    (h2 : newRequest flowURI = (none, some errMsg)) :
    basicRemoteGetFlow readFile gunzip newRequest doRequest unmarshalRep
        flowURI = .panik := by
  simp [basicRemoteGetFlow, h1, h2]

/-- C10 witness: a malformed URL whose request construction fails. -/
theorem invalid_url_nil_request_panics_witness :
    basicRemoteGetFlow readFile0 gunzip0 newRequestBad doRequest0 unmarshal0
        "://bad" = .panik :=
  invalid_url_nil_request_panics readFile0 gunzip0 newRequestBad doRequest0
    unmarshal0 "://bad" "missing protocol scheme" (by decide) (by rfl)

end FlogoFlowSupport
